import Mathlib

/-
Shallow embedding of the WaterSense backend (src/index.js): the alert
notification pipeline (`checkAlerts`), the ingest clamp (POST /api/ingest),
the dispatch claim protocol (GET /api/alerts/sms/select) and delivery
acknowledgement (POST /api/alerts/sms/update), over an explicit relational
state.  Water levels are rationals (JS numbers in the exercised range),
timestamps are integer milliseconds (Date.now(), TIMESTAMP at ms
granularity).  SQL statements are modelled row-by-row over lists, with
PostgreSQL's documented semantics (in particular `ORDER BY c DESC` places
NULLs first).
-/

namespace WaterSense

/-- Row of `sms_subscribers`: `id SERIAL PRIMARY KEY`, `phone_number`,
`is_active BOOLEAN`. -/
structure Subscriber where
  id : Nat
  phone_number : String
  is_active : Bool
deriving DecidableEq

/-- Row of `alert_notifications` (see the CREATE TABLE in /api/init-db):
`delivery_status` is 0 = PENDING, 1 = SENT, 2 = CLAIMED; `sent_at` defaults
to NULL; `attempt_count` defaults to 0; `error_message` is nullable. -/
structure Notification where
  id : Nat
  subscriber_id : Nat
  alert_type : String
  water_level_cm : ℚ
  status : String
  message : String
  sent_at : Option ℤ
  delivery_status : Nat
  attempt_count : Nat
  error_message : Option String
deriving DecidableEq

/-- The relational state the pipeline reads and writes: the two tables and
the next value of the `alert_notifications` id sequence. -/
structure Db where
  subscribers : List Subscriber
  notifications : List Notification
  nextId : Nat
deriving DecidableEq

/-- Result of the Influx `collectRows(avgQuery)` call in `checkAlerts`:
either the query throws, or it yields a list of rows whose `_value` field
may be null. -/
inductive QueryResult where
  | err : QueryResult
  | rows : List (Option ℚ) → QueryResult
deriving DecidableEq

/-- JavaScript `Math.round`: round half towards positive infinity. -/
def jsRound (v : ℚ) : ℚ := ((⌊v + 1/2⌋ : ℤ) : ℚ)

/-- The smoothing step of `checkAlerts`: `smoothedLevel = waterLevel;
try { rows = collectRows(avgQuery); if (rows.length && rows[0]._value !== null)
smoothedLevel = Math.round(rows[0]._value); } catch { ... }`.  Any error,
empty result, or null `_value` leaves the raw value unchanged. -/
def smooth (q : QueryResult) (raw : ℚ) : ℚ :=
  match q with
  | .err => raw
  | .rows [] => raw
  | .rows (none :: _) => raw
  | .rows (some v :: _) => jsRound v

/-- The `avgQuery` Flux pipeline of `checkAlerts`, over the trailing
5-minute window of the location's samples (time order, latest last):
`range(start: -5m) |> filter(...) |> last() |> mean()`.  `last()` keeps
only the most recent row, so the subsequent `mean()` averages that single
sample: the query yields the latest sample of the window, or no rows for
an empty window. -/
def avgQuery (window : List ℚ) : List (Option ℚ) :=
  match window.getLast? with
  | none => []
  | some v => [some v]

/-- Modelled from the spec: "mean of field `value` ... over the trailing
5-minute window" — the windowed mean the Smoothing Service is specified
to output, for comparison with `avgQuery`. -/
def specWindowMean (window : List ℚ) : Option ℚ :=
  match window with
  | [] => none
  | _ => some (window.sum / window.length)

/-- Message template of the EMERGENCY branch of `checkAlerts`. -/
def emergencyMsg (w : ℚ) : String :=
  "WaterSense: Emergency\nWater level is " ++ toString w ++ " cm.\nEVACUATE IMMEDIATELY."

/-- Message template of the DANGER branch of `checkAlerts`. -/
def dangerMsg (w : ℚ) : String :=
  "WaterSense: Danger\nWater level is " ++ toString w ++ " cm."

/-- Message template of the WARNING branch of `checkAlerts`. -/
def warningMsg (w : ℚ) : String :=
  "WaterSense: Warning\nWater level is " ++ toString w ++ " cm."

/-- Message template of the CAUTION branch of `checkAlerts`. -/
def cautionMsg (w : ℚ) : String :=
  "WaterSense: Alert\nWater level is " ++ toString w ++ " cm."

/-- The threshold ladder of `checkAlerts` (`--- 2. Threshold logic ---`):
highest threshold first, yielding `(status, alertType, message)`, or `none`
for the early `return` when the level is below 20. -/
def classify (w : ℚ) : Option (String × String × String) :=
  if w ≥ 100 then some ("EMERGENCY", "EMERGENCY", emergencyMsg w)
  else if w ≥ 60 then some ("DANGER", "DANGER", dangerMsg w)
  else if w ≥ 40 then some ("WARNING", "WARNING", warningMsg w)
  else if w ≥ 20 then some ("CAUTION", "ALERT", cautionMsg w)
  else none

/-- Rows of `alert_notifications` matching `WHERE status = $1`. -/
def statusRows (notifs : List Notification) (status : String) : List Notification :=
  notifs.filter (fun n => n.status == status)

/-- The non-null `sent_at` values of a list of rows. -/
def sentTimes (rows : List Notification) : List ℤ :=
  rows.filterMap (fun n => n.sent_at)

/-- The `sent_at` of the row produced by `SELECT sent_at FROM
alert_notifications WHERE status = $1 ORDER BY sent_at DESC LIMIT 1`.
PostgreSQL's default for `DESC` ordering is `NULLS FIRST`, so the top row
has NULL `sent_at` exactly when some matching row does; otherwise it
carries the maximum `sent_at`.  `none` means the query returned no row. -/
def lastSentQuery (notifs : List Notification) (status : String) : Option (Option ℤ) :=
  let m := statusRows notifs status
  if m.isEmpty then none
  else if m.any (fun n => n.sent_at.isNone) then some none
  else match (sentTimes m).max? with
    | some t => some (some t)
    | none => none

/-- Per-tier cooldown of `checkAlerts`: `EMERGENCY_COOLDOWN = 60`,
`DEFAULT_COOLDOWN = 300` seconds. -/
def cooldownFor (status : String) : ℚ :=
  if status == "EMERGENCY" then 60 else 300

/-- The cooldown gate of `checkAlerts`: `true` means the early `return`
fires.  It fires only when the top row of the history query exists, has a
non-null `sent_at`, and `(Date.now() - sent_at) / 1000 < cooldown`. -/
def cooldownSuppresses (notifs : List Notification) (status : String) (now : ℤ) : Bool :=
  match lastSentQuery notifs status with
  | some (some t) => decide ((((now - t : ℤ)) : ℚ) / 1000 < cooldownFor status)
  | _ => false

/-- A fresh `alert_notifications` row as written by the enqueue INSERT of
`checkAlerts`: `delivery_status = 0`, and `sent_at`, `attempt_count`,
`error_message` take their column defaults. -/
def mkPending (nid sid : Nat) (alertType : String) (level : ℚ)
    (status message : String) : Notification :=
  { id := nid, subscriber_id := sid, alert_type := alertType,
    water_level_cm := level, status := status, message := message,
    sent_at := none, delivery_status := 0, attempt_count := 0,
    error_message := none }

/-- One pending row per listed subscriber, with ids drawn consecutively
from the sequence. -/
def mkPendingRows (nid : Nat) (subs : List Subscriber) (alertType : String)
    (level : ℚ) (status message : String) : List Notification :=
  match subs with
  | [] => []
  | s :: rest =>
    mkPending nid s.id alertType level status message ::
      mkPendingRows (nid + 1) rest alertType level status message

/-- Subscribers matching `WHERE is_active = TRUE`. -/
def activeSubscribers (db : Db) : List Subscriber :=
  db.subscribers.filter (fun s => s.is_active)

/-- The enqueue INSERT of `checkAlerts`: `INSERT INTO alert_notifications
(...) SELECT id, $1, $2, $3, 'SMS', $4, 0 FROM sms_subscribers WHERE
is_active = TRUE`. -/
def enqueue (db : Db) (alertType : String) (level : ℚ)
    (status message : String) : Db :=
  let acts := activeSubscribers db
  { db with
    notifications :=
      db.notifications ++ mkPendingRows db.nextId acts alertType level status message,
    nextId := db.nextId + acts.length }

/-- Observable outcome of one `checkAlerts` run: the final relational state
plus which effects past the classifier were reached (`cooldownQueried`:
the history SELECT ran; `insertPerformed`: the enqueue INSERT ran). -/
structure CheckResult where
  db : Db
  cooldownQueried : Bool
  insertPerformed : Bool
deriving DecidableEq

/-- The pipeline of `checkAlerts` after the smoothing step: classifier,
cooldown gate, enqueuer. -/
def afterSmoothing (waterLevel : ℚ) (db : Db) (now : ℤ) : CheckResult :=
  match classify waterLevel with
  | none => ⟨db, false, false⟩
  | some (status, alertType, message) =>
    if cooldownSuppresses db.notifications status now then ⟨db, true, false⟩
    else ⟨enqueue db alertType waterLevel status message, true, true⟩

/-- The whole of `checkAlerts`, given the outcome of the Influx query, the
raw water level, the relational state, and `Date.now()`. -/
def checkAlerts (q : QueryResult) (raw : ℚ) (db : Db) (now : ℤ) : CheckResult :=
  afterSmoothing (smooth q raw) db now

/-- The clamping step of POST /api/ingest: `if (rawWater < 0) rawWater = 0;
if (rawWater > 180) rawWater = 180;`. -/
def clamp (v : ℚ) : ℚ :=
  let v1 := if v < 0 then 0 else v
  if v1 > 180 then 180 else v1

/-- The status ladder of POST /api/ingest (dashboard status, distinct from
the alert severities). -/
def ingestStatus (level : ℚ) : String :=
  if level ≥ 120 then "Danger"
  else if level ≥ 60 then "Warning"
  else if level ≥ 30 then "Caution"
  else "Normal"

/-- Observables of POST /api/ingest for a numeric `water_level`: the value
written to Influx, the `checkAlerts` outcome, the `water_level_cm` of the
broadcast payload, and the payload status. -/
structure IngestResult where
  influx_value : ℚ
  check : CheckResult
  payload_water_level_cm : ℚ
  payload_status : String
deriving DecidableEq

/-- POST /api/ingest past the API-key check, for a numeric `water_level`:
clamp, Influx write, alert engine, broadcast — all on the clamped level. -/
def ingest (water_level : ℚ) (q : QueryResult) (db : Db) (now : ℤ) : IngestResult :=
  let level := clamp water_level
  { influx_value := level,
    check := checkAlerts q level db now,
    payload_water_level_cm := level,
    payload_status := ingestStatus level }

/-- Row shape returned by GET /api/alerts/sms/select: `a.id, s.phone_number
AS cp_num, a.message, a.delivery_status`. -/
structure SmsRow where
  id : Nat
  cp_num : String
  message : String
  delivery_status : Nat
deriving DecidableEq

/-- Ids of rows with `delivery_status = 0` (PENDING). -/
def pendingIds (notifs : List Notification) : List Nat :=
  (notifs.filter (fun n => n.delivery_status == 0)).map (fun n => n.id)

/-- The subquery of the claim UPDATE: `SELECT id FROM alert_notifications
WHERE delivery_status = 0 ORDER BY id ASC LIMIT 1 FOR UPDATE`. -/
def lowestPendingId (notifs : List Notification) : Option Nat :=
  (pendingIds notifs).min?

/-- Effect of `UPDATE alert_notifications SET delivery_status = 2 WHERE
id = i` on the table. -/
def markClaimed (notifs : List Notification) (i : Nat) : List Notification :=
  notifs.map (fun n => if n.id == i then { n with delivery_status := 2 } else n)

/-- The join of STEP 2 of the claim endpoint: `FROM alert_notifications a
JOIN sms_subscribers s ON s.id = a.subscriber_id WHERE a.delivery_status = 2
AND s.is_active = TRUE`. -/
def claimedJoin (db : Db) : List (Notification × Subscriber) :=
  (db.notifications.filter (fun n => n.delivery_status == 2)).flatMap
    (fun n =>
      (db.subscribers.filter (fun s => s.id == n.subscriber_id && s.is_active)).map
        (fun s => (n, s)))

/-- STEP 2 of the claim endpoint: the join above, `ORDER BY a.id ASC
LIMIT 1`, projected to the selected columns.  Note that it filters on
`a.delivery_status = 2` alone — the lowest-id CLAIMED row overall, not
necessarily the row just claimed by STEP 1. -/
def selectClaimedRow (db : Db) : List SmsRow :=
  let cands := claimedJoin db
  match (cands.map (fun p => p.1.id)).min? with
  | none => []
  | some i =>
    match cands.find? (fun p => p.1.id == i) with
    | none => []
    | some p => [⟨p.1.id, p.2.phone_number, p.1.message, p.1.delivery_status⟩]

/-- One GET /api/alerts/sms/select transaction run to completion without
interleaving (each claim transaction is serialized by the `FOR UPDATE` row
lock): STEP 1 claims the lowest-id PENDING row (`lock.rowCount !== 1` rolls
the transaction back and answers `[]`), STEP 2 re-selects, COMMIT.  Returns
the state after the call and the JSON body. -/
def claimNextDelivery (db : Db) : Db × List SmsRow :=
  match lowestPendingId db.notifications with
  | none => (db, [])
  | some i =>
    let rowCount := (db.notifications.filter (fun n => n.id == i)).length
    if rowCount == 1 then
      let db' := { db with notifications := markClaimed db.notifications i }
      (db', selectClaimedRow db')
    else (db, [])

/-- Failure modes of one GET /api/alerts/sms/select invocation: `ok` — every
storage call succeeds; `connectFail` — `await pool.connect()` throws (it
sits OUTSIDE the try/catch); `txnFail rollbackFails` — some query inside
the try throws and control reaches the catch, whose own `await
client.query("ROLLBACK")` either succeeds or throws in turn. -/
inductive SelectFailure where
  | ok : SelectFailure
  | connectFail : SelectFailure
  | txnFail : Bool → SelectFailure
deriving DecidableEq

/-- What the claim handler sends back: a JSON body, or nothing at all
because the async handler threw — the rejection escapes Express as an
unhandled promise rejection, no response is written, and under default
Node settings the process can crash. -/
inductive SelectOutcome where
  | json : List SmsRow → SelectOutcome
  | thrown : SelectOutcome
deriving DecidableEq

/-- GET /api/alerts/sms/select including the `SMS_DISABLED` kill switch and
its real error paths: a `pool.connect()` failure escapes the handler with
no response; a storage failure inside the transaction reaches the catch,
which answers `[]` when its ROLLBACK succeeds and otherwise rethrows (no
response).  In every failure case nothing is committed, so the state is
unchanged. -/
def smsSelectEndpoint (smsDisabled : Bool) (f : SelectFailure) (db : Db) :
    Db × SelectOutcome :=
  if smsDisabled then (db, .json [])
  else
    match f with
    | .ok =>
      let r := claimNextDelivery db
      (r.1, .json r.2)
    | .connectFail => (db, .thrown)
    | .txnFail rollbackFails =>
      if rollbackFails then (db, .thrown) else (db, .json [])

/-- N sequential claim calls; collects the per-call JSON bodies. -/
def runClaims : Nat → Db → Db × List (List SmsRow)
  | 0, db => (db, [])
  | n + 1, db =>
    let r := claimNextDelivery db
    let rest := runClaims n r.1
    (rest.1, r.2 :: rest.2)

/-- POST /api/alerts/sms/update past the `parseInt` guard (`!id` answers
"INVALID"): `UPDATE alert_notifications SET delivery_status = 1,
attempt_count = attempt_count + 1, sent_at = NOW(), error_message = NULL
WHERE id = $1 AND delivery_status = 2`, answering "SENT" when
`rowCount === 1` and "SKIPPED" otherwise. -/
def acknowledgeDelivery (db : Db) (i : Nat) (now : ℤ) : Db × String :=
  if i == 0 then (db, "INVALID")
  else
    let rowCount :=
      (db.notifications.filter (fun n => n.id == i && n.delivery_status == 2)).length
    let db' := { db with
      notifications := db.notifications.map (fun n =>
        if n.id == i && n.delivery_status == 2 then
          { n with delivery_status := 1, attempt_count := n.attempt_count + 1,
                   sent_at := some now, error_message := none }
        else n) }
    (db', if rowCount == 1 then "SENT" else "SKIPPED")

/-- POST /api/alerts/sms/update including the catch-all error handler: a
storage failure during the UPDATE is caught and answered with the literal
"ERROR" body (HTTP 200), never a thrown error. -/
def smsUpdateEndpoint (storageFails : Bool) (db : Db) (i : Nat) (now : ℤ) : Db × String :=
  if storageFails then (db, "ERROR")
  else acknowledgeDelivery db i now

/-- Ids of rows with `delivery_status = 2` (CLAIMED). -/
def claimedIds (notifs : List Notification) : List Nat :=
  (notifs.filter (fun n => n.delivery_status == 2)).map (fun n => n.id)

/-- Number of active subscribers of a state. -/
def activeCount (db : Db) : Nat := (activeSubscribers db).length

/-- The row written back by a successful acknowledgement of `n` at `now`. -/
def ackRow (n : Notification) (now : ℤ) : Notification :=
  { n with delivery_status := 1, attempt_count := n.attempt_count + 1,
           sent_at := some now, error_message := none }

/-- Concrete two-subscriber state used to exercise the claim protocol:
both rows PENDING. -/
def exDangerRow (i sid st : Nat) : Notification :=
  { id := i, subscriber_id := sid, alert_type := "DANGER", water_level_cm := 60,
    status := "DANGER", message := dangerMsg 60, sent_at := none,
    delivery_status := st, attempt_count := 0, error_message := none }

/-- Two active subscribers, two PENDING rows. -/
def twoPendingDb : Db :=
  ⟨[⟨1, "09171110001", true⟩, ⟨2, "09171110002", true⟩],
   [exDangerRow 1 1 0, exDangerRow 2 2 0], 3⟩

/-- Two active subscribers, row 1 already CLAIMED (unacknowledged), row 2
PENDING. -/
def staleClaimDb : Db :=
  ⟨[⟨1, "09171110001", true⟩, ⟨2, "09171110002", true⟩],
   [exDangerRow 1 1 2, exDangerRow 2 2 0], 3⟩

/-- One active subscriber, one CLAIMED row awaiting acknowledgement. -/
def oneClaimedDb : Db :=
  ⟨[⟨1, "09171110001", true⟩], [exDangerRow 1 1 0, exDangerRow 2 1 2], 3⟩

/-- A DANGER row acknowledged (SENT) at t = 970000 ms. -/
def sentDangerRow : Notification :=
  { exDangerRow 1 1 1 with sent_at := some 970000, attempt_count := 1 }

/-- One active subscriber; the only DANGER history row was SENT 30 s before
t = 1000000 ms. -/
def recentSentDb : Db := ⟨[⟨1, "09171110001", true⟩], [sentDangerRow], 2⟩

/-- Same as `recentSentDb` plus one PENDING DANGER row (NULL `sent_at`). -/
def recentSentPlusPendingDb : Db :=
  ⟨[⟨1, "09171110001", true⟩], [sentDangerRow, exDangerRow 2 1 0], 3⟩

end WaterSense

namespace WaterSense

lemma classify_eq_none_iff (w : ℚ) : classify w = none ↔ w < 20 := by
  unfold classify
  split_ifs with h1 h2 h3 h4 <;> simp <;> linarith

lemma classify_of_lt_20 {w : ℚ} (h : w < 20) : classify w = none :=
  (classify_eq_none_iff w).mpr h

/-- C8: for every smoothed value below the lowest threshold, `checkAlerts`
short-circuits after the classifier: the state is unchanged, the cooldown
history query does not run, and the enqueue insert does not run. -/
theorem C8_below_threshold_short_circuit (q : QueryResult) (raw : ℚ) (db : Db)
    (now : ℤ) (h : smooth q raw < 20) :
    checkAlerts q raw db now = ⟨db, false, false⟩ := by
  unfold checkAlerts afterSmoothing
  rw [classify_of_lt_20 h]

theorem C8_witness :
    smooth QueryResult.err 5 < 20 ∧
    checkAlerts QueryResult.err 5 twoPendingDb 0 = ⟨twoPendingDb, false, false⟩ :=
  ⟨by norm_num [smooth], C8_below_threshold_short_circuit QueryResult.err 5 twoPendingDb 0
    (by norm_num [smooth])⟩

/-- C4: the Severity Classifier is a pure total function evaluated
highest-threshold-first: v ≥ 100 is EMERGENCY, 60 ≤ v < 100 is DANGER,
40 ≤ v < 60 is WARNING, 20 ≤ v < 40 is CAUTION with alertType ALERT,
v < 20 is no alert; exactly 100 is EMERGENCY; each severity carries its
fixed message template. -/
theorem C4_classifier_thresholds :
    (∀ v : ℚ, 100 ≤ v → classify v = some ("EMERGENCY", "EMERGENCY", emergencyMsg v)) ∧
    (∀ v : ℚ, 60 ≤ v → v < 100 → classify v = some ("DANGER", "DANGER", dangerMsg v)) ∧
    (∀ v : ℚ, 40 ≤ v → v < 60 → classify v = some ("WARNING", "WARNING", warningMsg v)) ∧
    (∀ v : ℚ, 20 ≤ v → v < 40 → classify v = some ("CAUTION", "ALERT", cautionMsg v)) ∧
    (∀ v : ℚ, v < 20 → classify v = none) ∧
    classify 100 = some ("EMERGENCY", "EMERGENCY", emergencyMsg 100) := by
  refine ⟨?_, ?_, ?_, ?_, ?_, ?_⟩
  · intro v h; unfold classify; split_ifs with h1 <;> first | rfl | linarith
  · intro v h h'; unfold classify; split_ifs <;> first | rfl | linarith
  · intro v h h'; unfold classify; split_ifs <;> first | rfl | linarith
  · intro v h h'; unfold classify; split_ifs <;> first | rfl | linarith
  · intro v h; exact classify_of_lt_20 h
  · unfold classify; norm_num

theorem C4_witness :
    classify 100 = some ("EMERGENCY", "EMERGENCY", emergencyMsg 100) ∧
    classify 99 = some ("DANGER", "DANGER", dangerMsg 99) ∧
    classify 59 = some ("WARNING", "WARNING", warningMsg 59) ∧
    classify 39 = some ("CAUTION", "ALERT", cautionMsg 39) ∧
    classify 19 = none :=
  ⟨C4_classifier_thresholds.1 100 (by norm_num),
   C4_classifier_thresholds.2.1 99 (by norm_num) (by norm_num),
   C4_classifier_thresholds.2.2.1 59 (by norm_num) (by norm_num),
   C4_classifier_thresholds.2.2.2.1 39 (by norm_num) (by norm_num),
   C4_classifier_thresholds.2.2.2.2.1 19 (by norm_num)⟩

/-- C5: the `avgQuery` pipeline pipes `last()` before `mean()`, so the
smoothing step receives the most recent sample of the trailing 5-minute
window instead of its mean: with samples 10 and 50 in the window, the
classifier receives 50, while the window mean the claim (and the code's
own "Moving average" comment) calls for is 30.  The fallback clauses of
the claim do hold of the code: an error, an empty result, or a null value
leaves the raw value unchanged, and a non-null value is rounded. -/
theorem C5_last_before_mean :
    avgQuery [10, 50] = [some 50] ∧
    smooth (QueryResult.rows (avgQuery [10, 50])) 10 = 50 ∧
    specWindowMean [10, 50] = some 30 ∧
    jsRound 30 = 30 ∧
    smooth (QueryResult.rows (avgQuery [10, 50])) 10 ≠ 30 ∧
    (∀ raw : ℚ, smooth QueryResult.err raw = raw) ∧
    (∀ raw : ℚ, smooth (QueryResult.rows []) raw = raw) ∧
    (∀ (raw : ℚ) (t : List (Option ℚ)), smooth (QueryResult.rows (none :: t)) raw = raw) ∧
    (∀ (raw v : ℚ) (t : List (Option ℚ)),
      smooth (QueryResult.rows (some v :: t)) raw = jsRound v) ∧
    (∀ (raw : ℚ) (db : Db) (now : ℤ),
      checkAlerts QueryResult.err raw db now = afterSmoothing raw db now) := by
  refine ⟨by decide, ?_, ?_, ?_, ?_, fun _ => rfl, fun _ => rfl, fun _ _ => rfl,
    fun _ _ _ => rfl, fun _ _ _ => rfl⟩
  · show (jsRound 50 : ℚ) = 50
    norm_num [jsRound]
  · norm_num [specWindowMean]
  · norm_num [jsRound]
  · show (jsRound 50 : ℚ) ≠ 30
    norm_num [jsRound]

/-- C10: POST /api/ingest clamps a numeric `water_level` into [0, 180]
before the Influx write, the alert pipeline, and the broadcast; 500 is
processed as 180 and classified EMERGENCY. -/
theorem C10_ingest_clamp :
    (∀ v : ℚ, 0 ≤ clamp v ∧ clamp v ≤ 180) ∧
    (∀ v : ℚ, v < 0 → clamp v = 0) ∧
    (∀ v : ℚ, 180 < v → clamp v = 180) ∧
    (∀ v : ℚ, 0 ≤ v → v ≤ 180 → clamp v = v) ∧
    (∀ (v : ℚ) (q : QueryResult) (db : Db) (now : ℤ),
      ingest v q db now =
        ⟨clamp v, checkAlerts q (clamp v) db now, clamp v, ingestStatus (clamp v)⟩) ∧
    clamp 500 = 180 ∧
    (∀ (db : Db) (now : ℤ),
      (ingest 500 QueryResult.err db now).check = afterSmoothing 180 db now) ∧
    classify 180 = some ("EMERGENCY", "EMERGENCY", emergencyMsg 180) := by
  have hb : ∀ v : ℚ, 0 ≤ clamp v ∧ clamp v ≤ 180 := by
    intro v; simp only [clamp]; split_ifs <;> constructor <;> linarith
  have h500 : clamp 500 = 180 := by simp only [clamp]; norm_num
  refine ⟨hb, ?_, ?_, ?_, fun _ _ _ _ => rfl, h500, ?_, ?_⟩
  · intro v h; simp only [clamp]; split_ifs <;> linarith
  · intro v h; simp only [clamp]; split_ifs <;> linarith
  · intro v h h'; simp only [clamp]; split_ifs <;> linarith
  · intro db now
    show checkAlerts QueryResult.err (clamp 500) db now = afterSmoothing 180 db now
    rw [h500]; rfl
  · unfold classify; norm_num

theorem C10_witness :
    clamp (-5) = 0 ∧ clamp 500 = 180 ∧ clamp 90 = 90 ∧
    (ingest 500 QueryResult.err twoPendingDb 0).check = afterSmoothing 180 twoPendingDb 0 :=
  ⟨C10_ingest_clamp.2.1 (-5) (by norm_num), C10_ingest_clamp.2.2.2.2.2.1,
   C10_ingest_clamp.2.2.2.1 90 (by norm_num) (by norm_num),
   C10_ingest_clamp.2.2.2.2.2.2.1 twoPendingDb 0⟩

lemma isEmpty_eq_false_of_ne_nil {α : Type} {l : List α} (h : l ≠ []) :
    l.isEmpty = false := by
  cases l with
  | nil => exact absurd rfl h
  | cons a t => rfl

lemma lastSentQuery_eq_max {notifs : List Notification} {S : String} {t : ℤ}
    (hnn : ∀ n ∈ statusRows notifs S, n.sent_at ≠ none)
    (hmax : (sentTimes (statusRows notifs S)).max? = some t) :
    lastSentQuery notifs S = some (some t) := by
  have hne : statusRows notifs S ≠ [] := by
    intro h
    rw [h] at hmax
    simp [sentTimes] at hmax
  have hany : (statusRows notifs S).any (fun n => n.sent_at.isNone) = false := by
    rw [List.any_eq_false]
    intro n hn
    simp only [Option.isNone_iff_eq_none]
    exact hnn n hn
  simp only [lastSentQuery, isEmpty_eq_false_of_ne_nil hne, hany, hmax]
  rfl

lemma lastSentQuery_of_any_null {notifs : List Notification} {S : String}
    (h : (statusRows notifs S).any (fun n => n.sent_at.isNone) = true) :
    lastSentQuery notifs S = some none := by
  have hne : statusRows notifs S ≠ [] := by
    intro he; rw [he] at h; simp at h
  simp only [lastSentQuery, isEmpty_eq_false_of_ne_nil hne, h]
  rfl

lemma lastSentQuery_of_empty {notifs : List Notification} {S : String}
    (h : statusRows notifs S = []) : lastSentQuery notifs S = none := by
  simp [lastSentQuery, h]

lemma checkAlerts_suppressed {q : QueryResult} {raw : ℚ} {db : Db} {now : ℤ}
    {S A M : String} (hc : classify (smooth q raw) = some (S, A, M))
    (hs : cooldownSuppresses db.notifications S now = true) :
    checkAlerts q raw db now = ⟨db, true, false⟩ := by
  unfold checkAlerts afterSmoothing
  rw [hc]
  simp [hs]

lemma checkAlerts_passes {q : QueryResult} {raw : ℚ} {db : Db} {now : ℤ}
    {S A M : String} (hc : classify (smooth q raw) = some (S, A, M))
    (hs : cooldownSuppresses db.notifications S now = false) :
    checkAlerts q raw db now = ⟨enqueue db A (smooth q raw) S M, true, true⟩ := by
  unfold checkAlerts afterSmoothing
  rw [hc]
  simp [hs]

lemma mkPendingRows_length (nid : Nat) (subs : List Subscriber) (A : String)
    (lv : ℚ) (S M : String) :
    (mkPendingRows nid subs A lv S M).length = subs.length := by
  induction subs generalizing nid with
  | nil => rfl
  | cons s rest ih => simp [mkPendingRows, ih]

/-- C3 (amended): the Cooldown Gate reads the top row of the tier-S history
ordered by `sent_at` descending with NULLs first.  When every tier-S row
has a non-null `sent_at`, it suppresses exactly when the elapsed seconds
since the maximum `sent_at` are below the tier cooldown (60 s EMERGENCY,
300 s otherwise); with no tier-S row the gate passes; and any tier-S row
with NULL `sent_at` (e.g. a still-pending delivery) makes the gate pass
regardless of how recent the last sent notification is. -/
theorem C3_cooldown_gate_amended :
    (∀ (q : QueryResult) (raw : ℚ) (db : Db) (now : ℤ) (S A M : String) (t : ℤ),
      classify (smooth q raw) = some (S, A, M) →
      (∀ n ∈ statusRows db.notifications S, n.sent_at ≠ none) →
      (sentTimes (statusRows db.notifications S)).max? = some t →
      ((now - t : ℤ) : ℚ) / 1000 < cooldownFor S →
      checkAlerts q raw db now = ⟨db, true, false⟩) ∧
    (∀ (q : QueryResult) (raw : ℚ) (db : Db) (now : ℤ) (S A M : String) (t : ℤ),
      classify (smooth q raw) = some (S, A, M) →
      (∀ n ∈ statusRows db.notifications S, n.sent_at ≠ none) →
      (sentTimes (statusRows db.notifications S)).max? = some t →
      cooldownFor S ≤ ((now - t : ℤ) : ℚ) / 1000 →
      checkAlerts q raw db now = ⟨enqueue db A (smooth q raw) S M, true, true⟩) ∧
    (∀ (q : QueryResult) (raw : ℚ) (db : Db) (now : ℤ) (S A M : String),
      classify (smooth q raw) = some (S, A, M) →
      statusRows db.notifications S = [] →
      checkAlerts q raw db now = ⟨enqueue db A (smooth q raw) S M, true, true⟩) ∧
    (∀ (q : QueryResult) (raw : ℚ) (db : Db) (now : ℤ) (S A M : String),
      classify (smooth q raw) = some (S, A, M) →
      (statusRows db.notifications S).any (fun n => n.sent_at.isNone) = true →
      checkAlerts q raw db now = ⟨enqueue db A (smooth q raw) S M, true, true⟩) ∧
    cooldownFor "EMERGENCY" = 60 ∧
    (∀ S : String, S ≠ "EMERGENCY" → cooldownFor S = 300) ∧
    (∀ (db : Db) (A : String) (lv : ℚ) (S M : String),
      ((enqueue db A lv S M).notifications).length =
        db.notifications.length + activeCount db) := by
  refine ⟨?_, ?_, ?_, ?_, rfl, ?_, ?_⟩
  · intro q raw db now S A M t hc hnn hmax hlt
    have hq := lastSentQuery_eq_max hnn hmax
    exact checkAlerts_suppressed hc
      (by unfold cooldownSuppresses; rw [hq]; exact decide_eq_true hlt)
  · intro q raw db now S A M t hc hnn hmax hge
    have hq := lastSentQuery_eq_max hnn hmax
    exact checkAlerts_passes hc
      (by unfold cooldownSuppresses; rw [hq]; exact decide_eq_false (not_lt.mpr hge))
  · intro q raw db now S A M hc hempty
    have hq := lastSentQuery_of_empty hempty
    exact checkAlerts_passes hc (by simp [cooldownSuppresses, hq])
  · intro q raw db now S A M hc hany
    have hq := lastSentQuery_of_any_null hany
    exact checkAlerts_passes hc (by simp [cooldownSuppresses, hq])
  · intro S h
    simp [cooldownFor, h]
  · intro db A lv S M
    simp [enqueue, activeCount, mkPendingRows_length]

/-- C3 counterexample: a SENT DANGER notification 30 s old exists and the
DANGER cooldown is 300 s, yet `checkAlerts` at severity DANGER inserts a
new row (one per active subscriber) because a second DANGER row with NULL
`sent_at` tops the `ORDER BY sent_at DESC` result and the gate's
`last.rows[0].sent_at` test then fails, letting the alert through. -/
theorem C3_null_sent_at_bypasses_cooldown :
    sentDangerRow.status = "DANGER" ∧
    sentDangerRow.delivery_status = 1 ∧
    sentDangerRow.sent_at = some 970000 ∧
    ((1000000 - 970000 : ℤ) : ℚ) / 1000 < cooldownFor "DANGER" ∧
    sentDangerRow ∈ recentSentPlusPendingDb.notifications ∧
    (checkAlerts QueryResult.err 60 recentSentPlusPendingDb 1000000).db.notifications.length =
      recentSentPlusPendingDb.notifications.length + 1 := by
  refine ⟨rfl, rfl, rfl, ?_, ?_, ?_⟩
  · show ((30000 : ℤ) : ℚ) / 1000 < cooldownFor "DANGER"
    have h : cooldownFor "DANGER" = 300 := rfl
    rw [h]
    norm_num
  · decide
  · have hc : classify (smooth QueryResult.err 60 : ℚ) =
        some ("DANGER", "DANGER", dangerMsg 60) := rfl
    have hany : (statusRows recentSentPlusPendingDb.notifications "DANGER").any
        (fun n => n.sent_at.isNone) = true := by decide
    have hq := lastSentQuery_of_any_null hany
    have := @checkAlerts_passes QueryResult.err 60 recentSentPlusPendingDb 1000000
      "DANGER" "DANGER" (dangerMsg 60) hc (by simp [cooldownSuppresses, hq])
    rw [this]
    decide

theorem C3_witness :
    checkAlerts QueryResult.err 60 recentSentDb 1000000 = ⟨recentSentDb, true, false⟩ ∧
    checkAlerts QueryResult.err 60 recentSentDb 1271000 =
      ⟨enqueue recentSentDb "DANGER" 60 "DANGER" (dangerMsg 60), true, true⟩ := by
  constructor
  · exact C3_cooldown_gate_amended.1 QueryResult.err 60 recentSentDb 1000000
      "DANGER" "DANGER" (dangerMsg 60) 970000 rfl (by decide) (by decide)
      (by have h : cooldownFor "DANGER" = 300 := rfl
          rw [h]; norm_num)
  · exact C3_cooldown_gate_amended.2.1 QueryResult.err 60 recentSentDb 1271000
      "DANGER" "DANGER" (dangerMsg 60) 970000 rfl (by decide) (by decide)
      (by have h : cooldownFor "DANGER" = 300 := rfl
          rw [h]; norm_num)

lemma mkPendingRows_map_proj (nid : Nat) (subs : List Subscriber) (A : String)
    (lv : ℚ) (S M : String) :
    (mkPendingRows nid subs A lv S M).map
        (fun n => (n.subscriber_id, n.delivery_status, n.status,
          n.water_level_cm, n.message, n.alert_type)) =
      subs.map (fun s => (s.id, 0, S, lv, M, A)) := by
  induction subs generalizing nid with
  | nil => rfl
  | cons s rest ih => simp [mkPendingRows, mkPending, ih]

lemma mkPendingRows_mem_sub_id {nid : Nat} {subs : List Subscriber} {A : String}
    {lv : ℚ} {S M : String} {n : Notification}
    (h : n ∈ mkPendingRows nid subs A lv S M) :
    ∃ s ∈ subs, n.subscriber_id = s.id := by
  induction subs generalizing nid with
  | nil => simp [mkPendingRows] at h
  | cons s rest ih =>
    simp only [mkPendingRows, List.mem_cons] at h
    rcases h with h | h
    · exact ⟨s, by simp, by rw [h]; rfl⟩
    · obtain ⟨s', hs', he⟩ := ih h
      exact ⟨s', by simp [hs'], he⟩

/-- C6: when the classifier fires and the Cooldown Gate passes, the
Notification Enqueuer appends exactly one PENDING row (delivery_status 0)
per active subscriber — carrying the severity, the smoothed level, and the
precomposed message — appends no row for any inactive subscriber, and
leaves every pre-existing row unchanged. -/
theorem C6_enqueuer (q : QueryResult) (raw : ℚ) (db : Db) (now : ℤ)
    (S A M : String) (hc : classify (smooth q raw) = some (S, A, M))
    (hg : cooldownSuppresses db.notifications S now = false)
    (hsubs : (db.subscribers.map (fun s => s.id)).Nodup) :
    (checkAlerts q raw db now).insertPerformed = true ∧
    (checkAlerts q raw db now).db.subscribers = db.subscribers ∧
    (checkAlerts q raw db now).db.notifications.length =
      db.notifications.length + activeCount db ∧
    (checkAlerts q raw db now).db.notifications.take db.notifications.length =
      db.notifications ∧
    (((checkAlerts q raw db now).db.notifications.drop db.notifications.length).map
        (fun n => (n.subscriber_id, n.delivery_status, n.status,
          n.water_level_cm, n.message, n.alert_type)) =
      (activeSubscribers db).map (fun s => (s.id, 0, S, smooth q raw, M, A))) ∧
    (∀ s ∈ db.subscribers, s.is_active = false →
      ∀ n ∈ (checkAlerts q raw db now).db.notifications.drop db.notifications.length,
        n.subscriber_id ≠ s.id) := by
  rw [checkAlerts_passes hc hg]
  simp only [enqueue]
  refine ⟨trivial, trivial, ?_, ?_, ?_, ?_⟩
  · simp [activeCount, mkPendingRows_length]
  · simp
  · simp [mkPendingRows_map_proj]
  · intro s hs hinact n hn hid
    simp only [List.drop_left] at hn
    obtain ⟨s', hs', he⟩ := mkPendingRows_mem_sub_id hn
    have hs'mem : s' ∈ db.subscribers ∧ s'.is_active = true := by
      have := List.mem_filter.mp hs'
      exact ⟨this.1, this.2⟩
    have : s' = s :=
      List.inj_on_of_nodup_map hsubs hs'mem.1 hs (by rw [← he, hid])
    rw [this] at hs'mem
    rw [hs'mem.2] at hinact
    exact absurd hinact (by simp)

theorem C6_witness :
    (checkAlerts QueryResult.err 60 twoPendingDb 0).insertPerformed = true ∧
    (checkAlerts QueryResult.err 60 twoPendingDb 0).db.notifications.length =
      twoPendingDb.notifications.length + activeCount twoPendingDb := by
  have h := C6_enqueuer QueryResult.err 60 twoPendingDb 0 "DANGER" "DANGER"
    (dangerMsg 60) rfl
    (by have hany : (statusRows twoPendingDb.notifications "DANGER").any
          (fun n => n.sent_at.isNone) = true := by decide
        simp [cooldownSuppresses, lastSentQuery_of_any_null hany])
    (by decide)
  exact ⟨h.1, h.2.2.1⟩

lemma map_ite_eq_self (l : List Notification) (p : Notification → Bool)
    (f : Notification → Notification) (h : ∀ m ∈ l, p m = false) :
    l.map (fun m => if p m then f m else m) = l := by
  induction l with
  | nil => rfl
  | cons a t ih =>
    have ha := h a (List.mem_cons_self a t)
    simp [ha, ih (fun m hm => h m (List.mem_cons_of_mem a hm))]

lemma filter_id_singleton {l : List Notification} {n : Notification}
    (h : (l.map (fun m => m.id)).Nodup) (hn : n ∈ l) :
    l.filter (fun m => m.id == n.id) = [n] := by
  induction l with
  | nil => simp at hn
  | cons a t ih =>
    simp only [List.map_cons, List.nodup_cons] at h
    rcases List.mem_cons.mp hn with rfl | hmem
    · have ht : t.filter (fun m => m.id == n.id) = [] := by
        apply List.filter_eq_nil_iff.mpr
        intro m hm hbeq
        have : m.id = n.id := by simpa using hbeq
        exact h.1 (List.mem_map.mpr ⟨m, hm, this⟩)
      simp [List.filter_cons, ht]
    · have hne : a.id ≠ n.id := by
        intro he
        exact h.1 (by rw [he]; exact List.mem_map.mpr ⟨n, hmem, rfl⟩)
      simp only [List.filter_cons]
      rw [if_neg (by simpa using hne)]
      exact ih h.2 hmem

lemma ack_skip (d : Db) (i : Nat) (now : ℤ) (hi : (i == 0) = false)
    (hnone : ∀ m ∈ d.notifications, (m.id == i && m.delivery_status == 2) = false) :
    acknowledgeDelivery d i now = (d, "SKIPPED") := by
  have hfilter : d.notifications.filter
      (fun m => m.id == i && m.delivery_status == 2) = [] :=
    List.filter_eq_nil_iff.mpr (fun m hm => by simp [hnone m hm])
  have hmap : d.notifications.map (fun m =>
      if m.id == i && m.delivery_status == 2 then
        { m with delivery_status := 1, attempt_count := m.attempt_count + 1,
                 sent_at := some now, error_message := none }
      else m) = d.notifications :=
    map_ite_eq_self _ _ _ hnone
  simp only [acknowledgeDelivery, hi, Bool.false_eq_true, if_false, hfilter, hmap]
  simp

/-- C7: acknowledging a row currently CLAIMED transitions it to SENT with
`sent_at = now`, an incremented `attempt_count` and a cleared
`error_message`, answering "SENT"; against the same row in any other state
the call leaves the table unchanged and answers "SKIPPED" — in particular
a second acknowledgement of the same id answers "SKIPPED". -/
theorem C7_acknowledge (db : Db) (i : Nat) (now : ℤ)
    (hids : (db.notifications.map (fun m => m.id)).Nodup)
    (hi : i ≠ 0) (n : Notification) (hn : n ∈ db.notifications) (hnid : n.id = i) :
    (n.delivery_status = 2 →
      (acknowledgeDelivery db i now).2 = "SENT" ∧
      (ackRow n now).delivery_status = 1 ∧
      (ackRow n now).sent_at = some now ∧
      (ackRow n now).attempt_count = n.attempt_count + 1 ∧
      (ackRow n now).error_message = none ∧
      ackRow n now ∈ (acknowledgeDelivery db i now).1.notifications ∧
      (∀ m ∈ db.notifications, m.id ≠ i →
        m ∈ (acknowledgeDelivery db i now).1.notifications) ∧
      (acknowledgeDelivery db i now).1.subscribers = db.subscribers ∧
      (∀ now2 : ℤ,
        acknowledgeDelivery (acknowledgeDelivery db i now).1 i now2 =
          ((acknowledgeDelivery db i now).1, "SKIPPED"))) ∧
    (n.delivery_status ≠ 2 →
      acknowledgeDelivery db i now = (db, "SKIPPED")) := by
  have h0 : (i == 0) = false := by simp [hi]
  have hsing : db.notifications.filter (fun m => m.id == i) = [n] := by
    have := filter_id_singleton hids hn
    rwa [hnid] at this
  constructor
  · intro hst
    have hfull : db.notifications.filter
        (fun m => m.id == i && m.delivery_status == 2) = [n] := by
      have hsw : db.notifications.filter
          (fun m => m.id == i && m.delivery_status == 2) =
          db.notifications.filter
            (fun m => m.delivery_status == 2 && m.id == i) :=
        List.filter_congr (fun m _ => by rw [Bool.and_comm])
      rw [hsw, ← List.filter_filter, hsing]
      simp [hst]
    have hr2 : (acknowledgeDelivery db i now).2 = "SENT" := by
      simp [acknowledgeDelivery, h0, hfull]
    have hnots : (acknowledgeDelivery db i now).1.notifications =
        db.notifications.map (fun m =>
          if m.id == i && m.delivery_status == 2 then
            { m with delivery_status := 1, attempt_count := m.attempt_count + 1,
                     sent_at := some now, error_message := none }
          else m) := by
      simp [acknowledgeDelivery, h0]
    have hpn : (n.id == i && n.delivery_status == 2) = true := by
      simp [hnid, hst]
    refine ⟨hr2, rfl, rfl, rfl, rfl, ?_, ?_, ?_, ?_⟩
    · rw [hnots]
      have := List.mem_map_of_mem (fun m =>
        if m.id == i && m.delivery_status == 2 then
          { m with delivery_status := 1, attempt_count := m.attempt_count + 1,
                   sent_at := some now, error_message := none }
        else m) hn
      simpa [hpn, ackRow] using this
    · intro m hm hmne
      rw [hnots]
      have hpm : (m.id == i && m.delivery_status == 2) = false := by
        simp [hmne]
      have := List.mem_map_of_mem (fun m =>
        if m.id == i && m.delivery_status == 2 then
          { m with delivery_status := 1, attempt_count := m.attempt_count + 1,
                   sent_at := some now, error_message := none }
        else m) hm
      simpa [hpm] using this
    · simp [acknowledgeDelivery, h0]
    · intro now2
      have hnone1 : ∀ m ∈ (acknowledgeDelivery db i now).1.notifications,
          (m.id == i && m.delivery_status == 2) = false := by
        rw [hnots]
        intro m hm
        obtain ⟨m', hm', rfl⟩ := List.mem_map.mp hm
        by_cases hp : (m'.id == i && m'.delivery_status == 2) = true
        · simp [hp]
        · have hp' : (m'.id == i && m'.delivery_status == 2) = false := by
            simpa using hp
          simp [hp']
      exact ack_skip _ i now2 h0 hnone1
  · intro hst
    have hnone : ∀ m ∈ db.notifications,
        (m.id == i && m.delivery_status == 2) = false := by
      intro m hm
      by_cases hc : m.id = i
      · have hmf : m ∈ db.notifications.filter (fun x => x.id == i) :=
          List.mem_filter.mpr ⟨hm, by simp [hc]⟩
        rw [hsing] at hmf
        have : m = n := by simpa using hmf
        subst this
        simp [hst]
      · simp [hc]
    exact ack_skip db i now h0 hnone

theorem C7_witness :
    (acknowledgeDelivery oneClaimedDb 2 5).2 = "SENT" ∧
    acknowledgeDelivery (acknowledgeDelivery oneClaimedDb 2 5).1 2 6 =
      ((acknowledgeDelivery oneClaimedDb 2 5).1, "SKIPPED") := by
  have h := C7_acknowledge oneClaimedDb 2 5 (by decide) (by decide)
    (exDangerRow 2 1 2) (List.mem_cons_of_mem _ (List.mem_cons_self _ _)) rfl
  exact ⟨(h.1 rfl).1, (h.1 rfl).2.2.2.2.2.2.2.2 6⟩

lemma selectClaimedRow_len (db : Db) : (selectClaimedRow db).length ≤ 1 := by
  unfold selectClaimedRow
  dsimp only
  split
  · simp
  · split <;> simp

lemma claim_empty {db : Db} (h : pendingIds db.notifications = []) :
    claimNextDelivery db = (db, []) := by
  have hnone : lowestPendingId db.notifications = none := by
    unfold lowestPendingId
    rw [h]
    rfl
  unfold claimNextDelivery
  rw [hnone]

/-- C9 (amended): a claim call against zero PENDING rows answers the empty
"no work" body and never an error; a storage failure inside the claim
transaction whose catch-side ROLLBACK succeeds is also surfaced as the
empty body with the state unchanged; but a failure of `pool.connect()`
(which sits outside the try) or of the catch's own ROLLBACK escapes the
handler with no response — an unhandled rejection that can crash the
process — and a storage failure during acknowledge is surfaced as the
literal "ERROR" body, not "skipped".  A claim response never carries more
than one row. -/
theorem C9_error_surface_amended :
    (∀ db : Db, pendingIds db.notifications = [] →
      claimNextDelivery db = (db, []) ∧
      smsSelectEndpoint false SelectFailure.ok db = (db, SelectOutcome.json [])) ∧
    (∀ db : Db, smsSelectEndpoint false (SelectFailure.txnFail false) db =
      (db, SelectOutcome.json [])) ∧
    (∀ db : Db, smsSelectEndpoint false SelectFailure.connectFail db =
      (db, SelectOutcome.thrown)) ∧
    (∀ db : Db, smsSelectEndpoint false (SelectFailure.txnFail true) db =
      (db, SelectOutcome.thrown)) ∧
    (∀ (db : Db) (i : Nat) (now : ℤ), smsUpdateEndpoint true db i now = (db, "ERROR")) ∧
    (∀ db : Db, ((claimNextDelivery db).2).length ≤ 1) := by
  refine ⟨?_, fun _ => rfl, fun _ => rfl, fun _ => rfl, fun _ _ _ => rfl, ?_⟩
  · intro db h
    have he : claimNextDelivery db = (db, []) := claim_empty h
    refine ⟨he, ?_⟩
    show ((claimNextDelivery db).1, SelectOutcome.json (claimNextDelivery db).2) =
      (db, SelectOutcome.json [])
    rw [he]
  · intro db
    unfold claimNextDelivery
    split
    · simp
    · dsimp only
      split
      · exact selectClaimedRow_len _
      · simp

/-- C9 counterexample: a storage failure during acknowledgement of a
CLAIMED row is surfaced as "ERROR" — neither the "no work available" body
nor "SKIPPED" — and a `pool.connect()` failure during a claim call yields
no response at all (the rejection escapes the handler) rather than the
"no work" body. -/
theorem C9_ack_failure_says_error :
    (smsUpdateEndpoint true oneClaimedDb 2 0).2 = "ERROR" ∧
    (smsUpdateEndpoint true oneClaimedDb 2 0).2 ≠ "SENT" ∧
    (smsUpdateEndpoint true oneClaimedDb 2 0).2 ≠ "SKIPPED" ∧
    smsSelectEndpoint false SelectFailure.connectFail twoPendingDb =
      (twoPendingDb, SelectOutcome.thrown) ∧
    SelectOutcome.thrown ≠ SelectOutcome.json [] := by
  refine ⟨rfl, by decide, by decide, rfl, by decide⟩

theorem C9_witness :
    pendingIds recentSentDb.notifications = [] ∧
    claimNextDelivery recentSentDb = (recentSentDb, []) ∧
    smsSelectEndpoint false SelectFailure.ok recentSentDb =
      (recentSentDb, SelectOutcome.json []) ∧
    smsUpdateEndpoint true oneClaimedDb 1 0 = (oneClaimedDb, "ERROR") := by
  have h1 := C9_error_surface_amended.1 recentSentDb (by decide)
  exact ⟨by decide, h1.1, h1.2, C9_error_surface_amended.2.2.2.2.1 oneClaimedDb 1 0⟩

lemma claim_reduce (db : Db) (i : Nat)
    (hids : (db.notifications.map (fun m => m.id)).Nodup)
    (hlow : lowestPendingId db.notifications = some i) :
    ∃ n ∈ db.notifications, n.id = i ∧ n.delivery_status = 0 ∧
      db.notifications.filter (fun m => m.id == i) = [n] ∧
      claimNextDelivery db =
        ({ db with notifications := markClaimed db.notifications i },
         selectClaimedRow { db with notifications := markClaimed db.notifications i }) := by
  have hlow' : (pendingIds db.notifications).min? = some i := hlow
  have hmem : i ∈ pendingIds db.notifications :=
    List.min?_mem (fun a b => by omega) hlow'
  obtain ⟨n, hnf, hni⟩ := List.mem_map.mp hmem
  have hnl : n ∈ db.notifications := (List.mem_filter.mp hnf).1
  have hnds : n.delivery_status = 0 := by
    simpa using (List.mem_filter.mp hnf).2
  have hsing : db.notifications.filter (fun m => m.id == i) = [n] := by
    have := filter_id_singleton hids hnl
    rwa [hni] at this
  refine ⟨n, hnl, hni, hnds, hsing, ?_⟩
  unfold claimNextDelivery
  rw [hlow]
  dsimp only
  rw [hsing]
  simp

lemma markClaimed_map_id (l : List Notification) (i : Nat) :
    (markClaimed l i).map (fun n => n.id) = l.map (fun n => n.id) := by
  unfold markClaimed
  rw [List.map_map]
  apply List.map_congr_left
  intro m _
  by_cases hc : (m.id == i) = true <;> simp [Function.comp, hc]

lemma markClaimed_map_pair (l : List Notification) (i : Nat) :
    (markClaimed l i).map (fun n => (n.id, n.delivery_status)) =
      l.map (fun n => (n.id, if n.id = i then 2 else n.delivery_status)) := by
  unfold markClaimed
  rw [List.map_map]
  apply List.map_congr_left
  intro m _
  by_cases hc : m.id = i
  · simp [Function.comp, hc]
  · simp [Function.comp, hc]

lemma claim_ids (db : Db) :
    ((claimNextDelivery db).1.notifications).map (fun n => n.id) =
      db.notifications.map (fun n => n.id) := by
  unfold claimNextDelivery
  split
  · rfl
  · dsimp only
    split
    · exact markClaimed_map_id _ _
    · rfl

lemma runClaims_ids (N : Nat) (db : Db) :
    ((runClaims N db).1.notifications).map (fun n => n.id) =
      db.notifications.map (fun n => n.id) := by
  induction N generalizing db with
  | zero => rfl
  | succ k ih =>
    show ((runClaims k (claimNextDelivery db).1).1.notifications).map _ = _
    rw [ih, claim_ids]

lemma mark_counts {l : List Notification} {i : Nat} {n : Notification}
    (hf : l.filter (fun m => m.id == i) = [n]) (hds : n.delivery_status = 0) :
    ((markClaimed l i).filter (fun m => m.delivery_status == 2)).length =
      (l.filter (fun m => m.delivery_status == 2)).length + 1 ∧
    (l.filter (fun m => m.delivery_status == 0)).length =
      ((markClaimed l i).filter (fun m => m.delivery_status == 0)).length + 1 := by
  induction l with
  | nil => simp at hf
  | cons a t ih =>
    rw [List.filter_cons] at hf
    by_cases hc : (a.id == i) = true
    · rw [if_pos hc] at hf
      simp only [List.cons.injEq] at hf
      obtain ⟨ha, ht⟩ := hf
      subst ha
      have htid : ∀ m ∈ t, (m.id == i) = false := fun m hm => by
        have := List.filter_eq_nil_iff.mp ht m hm
        simpa using this
      have hmt : t.map (fun m => if m.id == i then { m with delivery_status := 2 } else m) = t :=
        map_ite_eq_self t _ _ htid
      simp only [markClaimed, List.map_cons, hc, if_true, hmt]
      rw [List.filter_cons, List.filter_cons, List.filter_cons, List.filter_cons]
      simp [hds]
    · have hcf : (a.id == i) = false := by simpa using hc
      rw [if_neg hc] at hf
      have hrec := ih hf
      simp only [markClaimed] at hrec ⊢
      simp only [List.map_cons, hcf, Bool.false_eq_true, if_false]
      rw [List.filter_cons, List.filter_cons, List.filter_cons, List.filter_cons]
      split_ifs <;>
        (try simp only [beq_iff_eq] at *) <;>
        (try simp only [List.length_cons]) <;> omega

lemma claim_step (db : Db)
    (hids : (db.notifications.map (fun m => m.id)).Nodup)
    (hne : pendingIds db.notifications ≠ []) :
    ((claimNextDelivery db).1.notifications.filter
        (fun m => m.delivery_status == 2)).length =
      (db.notifications.filter (fun m => m.delivery_status == 2)).length + 1 ∧
    (db.notifications.filter (fun m => m.delivery_status == 0)).length =
      ((claimNextDelivery db).1.notifications.filter
        (fun m => m.delivery_status == 0)).length + 1 := by
  have hex : ∃ i, lowestPendingId db.notifications = some i := by
    unfold lowestPendingId
    cases h : (pendingIds db.notifications).min? with
    | none => exact absurd (List.min?_eq_none_iff.mp h) hne
    | some i => exact ⟨i, rfl⟩
  obtain ⟨i, hlow⟩ := hex
  obtain ⟨n, hnl, hni, hnds, hsing, hred⟩ := claim_reduce db i hids hlow
  rw [hred]
  exact mark_counts hsing hnds

lemma runClaims_counts (N : Nat) (db : Db)
    (hids : (db.notifications.map (fun m => m.id)).Nodup) :
    ((runClaims N db).1.notifications.filter
        (fun m => m.delivery_status == 2)).length =
      (db.notifications.filter (fun m => m.delivery_status == 2)).length +
        min N (db.notifications.filter (fun m => m.delivery_status == 0)).length ∧
    ((runClaims N db).1.notifications.filter
        (fun m => m.delivery_status == 0)).length +
        min N (db.notifications.filter (fun m => m.delivery_status == 0)).length =
      (db.notifications.filter (fun m => m.delivery_status == 0)).length := by
  induction N generalizing db with
  | zero => simp [runClaims]
  | succ k ih =>
    have hstep : (runClaims (k + 1) db).1 = (runClaims k (claimNextDelivery db).1).1 := rfl
    by_cases hpe : pendingIds db.notifications = []
    · have hemp : claimNextDelivery db = (db, []) := claim_empty hpe
      have hpz : (db.notifications.filter (fun m => m.delivery_status == 0)).length = 0 := by
        have h1 : (pendingIds db.notifications).length = 0 := by rw [hpe]; rfl
        have h2 : (pendingIds db.notifications).length =
            (db.notifications.filter (fun m => m.delivery_status == 0)).length :=
          List.length_map _ _
        omega
      rw [hstep, hemp]
      dsimp only
      obtain ⟨ih1, ih2⟩ := ih db hids
      constructor <;> omega
    · obtain ⟨hs1, hs2⟩ := claim_step db hids hpe
      have hids' : (((claimNextDelivery db).1.notifications).map (fun m => m.id)).Nodup := by
        rw [claim_ids]
        exact hids
      obtain ⟨ih1, ih2⟩ := ih (claimNextDelivery db).1 hids'
      rw [hstep]
      have hppos : 0 < (db.notifications.filter (fun m => m.delivery_status == 0)).length := by
        have h1 : (pendingIds db.notifications).length ≠ 0 := by
          intro h0
          exact hpe (List.length_eq_zero.mp h0)
        have h2 : (pendingIds db.notifications).length =
            (db.notifications.filter (fun m => m.delivery_status == 0)).length :=
          List.length_map _ _
        omega
      constructor <;> omega

/-- C1 (amended): N sequential claim calls (the serialization the blocking
row lock enforces) against a table with pairwise-distinct row ids transition
exactly min(N, M) rows from PENDING to CLAIMED, where M is the number of
PENDING rows; the CLAIMED row ids stay pairwise distinct and each call
claims at most one row.  The per-call *returned* bodies, however, are each
the lowest-id CLAIMED row with an active subscriber and need not be
distinct across calls. -/
theorem C1_claim_exclusivity_amended (N : Nat) (db : Db)
    (hids : (db.notifications.map (fun m => m.id)).Nodup) :
    (claimedIds ((runClaims N db).1.notifications)).Nodup ∧
    (claimedIds ((runClaims N db).1.notifications)).length =
      (claimedIds db.notifications).length +
        min N (pendingIds db.notifications).length ∧
    (pendingIds ((runClaims N db).1.notifications)).length +
        min N (pendingIds db.notifications).length =
      (pendingIds db.notifications).length ∧
    (∀ d : Db, (d.notifications.map (fun m => m.id)).Nodup →
      (claimedIds ((claimNextDelivery d).1.notifications)).length ≤
        (claimedIds d.notifications).length + 1) := by
  have hclen : ∀ l : List Notification, (claimedIds l).length =
      (l.filter (fun m => m.delivery_status == 2)).length :=
    fun l => List.length_map _ _
  have hplen : ∀ l : List Notification, (pendingIds l).length =
      (l.filter (fun m => m.delivery_status == 0)).length :=
    fun l => List.length_map _ _
  obtain ⟨hc, hp⟩ := runClaims_counts N db hids
  refine ⟨?_, ?_, ?_, ?_⟩
  · have hidsN : ((runClaims N db).1.notifications).map (fun m => m.id) =
        db.notifications.map (fun m => m.id) := runClaims_ids N db
    have hsub : (claimedIds ((runClaims N db).1.notifications)).Sublist
        (((runClaims N db).1.notifications).map (fun m => m.id)) :=
      List.Sublist.map _ (List.filter_sublist _)
    have hnodup : (((runClaims N db).1.notifications).map (fun m => m.id)).Nodup := by
      rw [hidsN]
      exact hids
    exact List.Nodup.sublist hsub hnodup
  · rw [hclen, hclen, hplen]
    exact hc
  · rw [hplen, hplen]
    exact hp
  · intro d hd
    by_cases hpe : pendingIds d.notifications = []
    · rw [claim_empty hpe]
      dsimp only
      omega
    · obtain ⟨hs1, _⟩ := claim_step d hd hpe
      rw [hclen, hclen]
      omega

/-- C1 counterexample: two sequential claim calls against two PENDING rows
(ids 1 and 2, distinct) both return the row with id 1 — the first call
claims row 1 and returns it unacknowledged; the second call claims row 2
but STEP 2 again selects the lowest-id CLAIMED row, id 1 — so the returned
ids are [1], [1]: not pairwise distinct, and their set has size 1 ≠
min(2, 2). -/
theorem C1_returned_ids_repeat :
    (twoPendingDb.notifications.map (fun m => m.id)).Nodup ∧
    (pendingIds twoPendingDb.notifications).length = 2 ∧
    ((runClaims 2 twoPendingDb).2.map (fun r => r.map (fun x => x.id))) = [[1], [1]] ∧
    ¬ (((runClaims 2 twoPendingDb).2.flatMap (fun r => r.map (fun x => x.id))).Nodup) := by
  refine ⟨by decide, by decide, by decide, by decide⟩

theorem C1_witness :
    (claimedIds ((runClaims 2 twoPendingDb).1.notifications)).Nodup ∧
    (claimedIds ((runClaims 2 twoPendingDb).1.notifications)).length =
      (claimedIds twoPendingDb.notifications).length +
        min 2 (pendingIds twoPendingDb.notifications).length ∧
    (pendingIds ((runClaims 2 twoPendingDb).1.notifications)).length +
        min 2 (pendingIds twoPendingDb.notifications).length =
      (pendingIds twoPendingDb.notifications).length := by
  have h := C1_claim_exclusivity_amended 2 twoPendingDb (by decide)
  exact ⟨h.1, h.2.1, h.2.2.1⟩

lemma filter_claimed_mark {l : List Notification} {i : Nat} {n : Notification}
    (hf : l.filter (fun m => m.id == i) = [n])
    (hnc : l.filter (fun m => m.delivery_status == 2) = []) :
    (markClaimed l i).filter (fun m => m.delivery_status == 2) =
      [{ n with delivery_status := 2 }] := by
  induction l with
  | nil => simp at hf
  | cons a t ih =>
    rw [List.filter_cons] at hf hnc
    have hat : (a.delivery_status == 2) = false ∧
        t.filter (fun m => m.delivery_status == 2) = [] := by
      by_cases h2 : (a.delivery_status == 2) = true
      · rw [if_pos h2] at hnc
        exact absurd hnc (by simp)
      · rw [if_neg h2] at hnc
        exact ⟨by simpa using h2, hnc⟩
    by_cases hc : (a.id == i) = true
    · rw [if_pos hc] at hf
      simp only [List.cons.injEq] at hf
      obtain ⟨ha, ht⟩ := hf
      subst ha
      have htid : ∀ m ∈ t, (m.id == i) = false := fun m hm => by
        have := List.filter_eq_nil_iff.mp ht m hm
        simpa using this
      have hmt : t.map (fun m => if m.id == i then { m with delivery_status := 2 } else m) = t :=
        map_ite_eq_self t _ _ htid
      simp only [markClaimed, List.map_cons, hc, if_true, hmt]
      rw [List.filter_cons]
      simp [hat.2]
    · have hcf : (a.id == i) = false := by simpa using hc
      rw [if_neg hc] at hf
      have hrec := ih hf hat.2
      simp only [markClaimed, List.map_cons, hcf, Bool.false_eq_true, if_false]
      rw [List.filter_cons, if_neg (by simp [hat.1])]
      simpa only [markClaimed] using hrec

lemma sub_filter_singleton {subs : List Subscriber} {s : Subscriber} {k : Nat}
    (h : (subs.map (fun x => x.id)).Nodup) (hs : s ∈ subs) (hid : s.id = k)
    (hact : s.is_active = true) :
    subs.filter (fun x => x.id == k && x.is_active) = [s] := by
  induction subs with
  | nil => simp at hs
  | cons a t ih =>
    simp only [List.map_cons, List.nodup_cons] at h
    rcases List.mem_cons.mp hs with rfl | hmem
    · have ht : t.filter (fun x => x.id == k && x.is_active) = [] := by
        apply List.filter_eq_nil_iff.mpr
        intro m hm hb
        have hmk : m.id = k := by
          have := (Bool.and_eq_true _ _).mp hb
          simpa using this.1
        exact h.1 (List.mem_map.mpr ⟨m, hm, hmk.trans hid.symm⟩)
      rw [List.filter_cons, if_pos (by simp [hid, hact])]
      simp [ht]
    · have hne : a.id ≠ k := fun he =>
        h.1 (by rw [he, ← hid]; exact List.mem_map.mpr ⟨s, hmem, rfl⟩)
      rw [List.filter_cons, if_neg (by simp [hne])]
      exact ih h.2 hmem

/-- C2 (amended): each claim call transitions exactly the single lowest-id
PENDING row to CLAIMED inside one transaction and returns one row or zero
rows; the returned row is the lowest-id CLAIMED row joined with its active
subscriber — which is the just-claimed row whenever no row was already in
CLAIMED state before the call, but not in general. -/
theorem C2_claim_call_amended (db : Db) (i : Nat)
    (hids : (db.notifications.map (fun m => m.id)).Nodup)
    (hlow : lowestPendingId db.notifications = some i) :
    ((claimNextDelivery db).1.notifications.map (fun n => (n.id, n.delivery_status)) =
      db.notifications.map
        (fun n => (n.id, if n.id = i then 2 else n.delivery_status))) ∧
    (claimNextDelivery db).1.subscribers = db.subscribers ∧
    ((claimNextDelivery db).2).length ≤ 1 ∧
    (claimedIds db.notifications = [] →
      (db.subscribers.map (fun x => x.id)).Nodup →
      ∀ n ∈ db.notifications, n.id = i →
      ∀ s ∈ db.subscribers, s.id = n.subscriber_id → s.is_active = true →
      (claimNextDelivery db).2 = [⟨i, s.phone_number, n.message, 2⟩]) := by
  obtain ⟨n0, hn0l, hn0i, hn0ds, hsing, hred⟩ := claim_reduce db i hids hlow
  refine ⟨?_, ?_, ?_, ?_⟩
  · rw [hred]
    exact markClaimed_map_pair _ _
  · rw [hred]
  · rw [hred]
    exact selectClaimedRow_len _
  · intro hnoc hsubs n hnl hni s hsl hsid hsact
    have hnn0 : n = n0 := by
      have hmf : n ∈ db.notifications.filter (fun m => m.id == i) :=
        List.mem_filter.mpr ⟨hnl, by simp [hni]⟩
      rw [hsing] at hmf
      simpa using hmf
    subst hnn0
    have hfnil : db.notifications.filter (fun m => m.delivery_status == 2) = [] := by
      have : claimedIds db.notifications = [] := hnoc
      unfold claimedIds at this
      exact List.map_eq_nil_iff.mp this
    have hfc : (markClaimed db.notifications i).filter
        (fun m => m.delivery_status == 2) = [{ n with delivery_status := 2 }] :=
      filter_claimed_mark hsing hfnil
    have hsub : db.subscribers.filter
        (fun x => x.id == n.subscriber_id && x.is_active) = [s] :=
      sub_filter_singleton hsubs hsl hsid hsact
    have hjoin : claimedJoin
        { db with notifications := markClaimed db.notifications i } =
        [({ n with delivery_status := 2 }, s)] := by
      unfold claimedJoin
      rw [hfc]
      simp [hsub]
    rw [hred]
    unfold selectClaimedRow
    rw [hjoin]
    simp [hni]

/-- C2 counterexample: with row 1 already CLAIMED (unacknowledged) and row
2 PENDING, the claim call transitions row 2 (the lowest-id PENDING row) to
CLAIMED but returns row 1 — not the just-claimed row. -/
theorem C2_returns_older_claimed_row :
    lowestPendingId staleClaimDb.notifications = some 2 ∧
    ((claimNextDelivery staleClaimDb).1.notifications.map
        (fun n => (n.id, n.delivery_status))) = [(1, 2), (2, 2)] ∧
    ((claimNextDelivery staleClaimDb).2.map (fun x => x.id)) = [1] ∧
    (∀ x ∈ (claimNextDelivery staleClaimDb).2, x.id ≠ 2) := by
  refine ⟨by decide, by decide, by decide, by decide⟩

theorem C2_witness :
    ((claimNextDelivery twoPendingDb).1.notifications.map
        (fun n => (n.id, n.delivery_status))) =
      twoPendingDb.notifications.map
        (fun n => (n.id, if n.id = 1 then 2 else n.delivery_status)) ∧
    (claimNextDelivery twoPendingDb).2 =
      [⟨1, "09171110001", (exDangerRow 1 1 0).message, 2⟩] := by
  have h := C2_claim_call_amended twoPendingDb 1 (by decide) (by decide)
  refine ⟨h.1, ?_⟩
  exact h.2.2.2 (by decide) (by decide) (exDangerRow 1 1 0)
    (List.mem_cons_self _ _) rfl ⟨1, "09171110001", true⟩
    (List.mem_cons_self _ _) rfl rfl

end WaterSense
